import Mathlib

/-!
Shallow embedding of the AI gateway controller of the cultural-heritage
platform (`Backend/controllers/aiController.jsx`), together with the
auxiliary string operations the controller relies on.  JavaScript strings
are modelled as Lean `String` (the inputs of interest are ASCII, so
UTF-16 units coincide with characters); `undefined`/absent values are
modelled with `Option` or, where JS truthiness on strings matters, with
the empty string.
-/

namespace AIKP

/-- JS whitespace as used by `String.prototype.trim` on the inputs of
interest (space, tab, newline, carriage return). -/
def isJsWhite (c : Char) : Bool :=
  c = ' ' || c = '\t' || c = '\n' || c = '\r'

/-- `String.prototype.trim`: strip leading and trailing whitespace. -/
def jsTrim (s : String) : String :=
  String.mk ((((s.data.dropWhile isJsWhite).reverse).dropWhile isJsWhite).reverse)

/-- Core of `String.prototype.split(",")` on the character list:
`"",split(",") = [""]`, separators delimit possibly empty tokens. -/
def splitCommaAux : List Char → List (List Char)
  | [] => [[]]
  | c :: cs =>
    let rest := splitCommaAux cs
    if c = ',' then [] :: rest
    else
      match rest with
      | [] => [[c]]
      | r :: rs => (c :: r) :: rs

/-- `s.split(",")` of JavaScript. -/
def jsSplitComma (s : String) : List String :=
  (splitCommaAux s.data).map String.mk

/-- `s.substring(0, n)` of JavaScript: the first `n` characters. -/
def substrTo (s : String) (n : Nat) : String :=
  String.mk (s.data.take n)

/-- Tag post-processing of `generateTags` (aiController.jsx lines 466-470):
split the adapter output on commas, trim each token, keep tokens with
`0 < length < 50`, and cap the result at 15 tags. -/
def parseTags (tagsText : String) : List String :=
  ((((jsSplitComma tagsText).map jsTrim).filter
      (fun tag => 0 < tag.length && tag.length < 50)).take 15)

/-! ## Data model -/

/-- One turn of a conversation (role is "user" or "assistant"). -/
structure Message where
  role : String
  content : String
deriving DecidableEq, Repr

/-- A persisted conversation document (`models/Conversation`). -/
structure Conversation where
  id : Nat
  userId : Nat
  title : String
  messages : List Message
deriving DecidableEq, Repr

/-- The conversation collection; `nextId` models Mongo id generation. -/
structure ConvStore where
  conversations : List Conversation
  nextId : Nat
deriving DecidableEq, Repr

/-- A cultural entry as projected by the AI controller.  `culturalContext`
and `locationCountry` use `""` for the absent (falsy) case, matching the
JS truthiness tests `if (entry.culturalContext)` / `entry.location?.country`. -/
structure Entry where
  id : Nat
  author : Nat
  status : String
  isPublic : Bool
  title : String
  description : String
  culturalContext : String
  category : String
  locationCountry : String
deriving DecidableEq, Repr

/-- The configured AI vendor (`process.env.AI_PROVIDER`). -/
inductive Provider where
  | openai
  | anthropic
  | google
deriving DecidableEq, Repr

/-- A thrown JS error as inspected by the catch blocks (`error.code`,
`error.status`, `error.message`). -/
structure JsError where
  code : Option String
  status : Option Nat
  message : String
deriving DecidableEq, Repr

/-! ## Conversation store operations -/

/-- `Conversation.findOne({ _id: cid, userId: uid })`: lookup filtered by
BOTH the conversation id and the requesting owner. -/
def findOwnedConversation (store : ConvStore) (cid uid : Nat) : Option Conversation :=
  store.conversations.find? (fun c => c.id == cid && c.userId == uid)

/-- `conversation.messages.slice(-5)`: the last 5 messages, in order. -/
def replayHistory (msgs : List Message) : List Message :=
  msgs.drop (msgs.length - 5)

/-- History assembly of `askQuestion` (lines 110-121): no id gives no
history; an id is looked up with the owner filter and a miss degrades to
no history. -/
def historyFor (store : ConvStore) (conversationId : Option Nat) (uid : Nat) :
    List Message :=
  match conversationId with
  | none => []
  | some cid =>
    match findOwnedConversation store cid uid with
    | some conv => replayHistory conv.messages
    | none => []

/-- `Conversation.findByIdAndUpdate(conversationId, { $push: ... })`
(lines 210-220): the update filter is the `_id` ALONE — no owner check —
so the pair lands on whichever conversation bears that id. -/
def pushMessagePair (store : ConvStore) (cid : Nat) (q a : String) : ConvStore :=
  { store with
    conversations := store.conversations.map (fun c =>
      if c.id = cid then
        { c with messages := c.messages ++ [⟨"user", q⟩, ⟨"assistant", a⟩] }
      else c) }

/-- The document built by `new Conversation({...})` on a fresh question
(lines 199-206): title is the question truncated to 100 characters and
the messages are exactly the user/assistant pair. -/
def newConversation (uid cid : Nat) (q a : String) : Conversation :=
  { id := cid
    userId := uid
    title := substrTo q 100
    messages := [⟨"user", q⟩, ⟨"assistant", a⟩] }

/-! ## Context assembler (entries) -/

/-- `Entry.find({ author, status: "published" }).limit(5)` (lines 76-81). -/
def fetchUserEntries (entries : List Entry) (uid : Nat) : List Entry :=
  (entries.filter (fun e => e.author == uid && e.status == "published")).take 5

/-- `entry.description.substring(0, 200)` (lines 90-93). -/
def descSnippet (e : Entry) : String := substrTo e.description 200

/-- `entry.culturalContext.substring(0, 150)` (lines 95-98). -/
def contextSnippet (e : Entry) : String := substrTo e.culturalContext 150

/-- The per-entry block appended to `entryContext` (lines 86-103). -/
def entryBlock (idx : Nat) (e : Entry) : String :=
  toString (idx + 1) ++ ". " ++ e.title ++ " (" ++ e.category ++ ")\n" ++
  "   Description: " ++ descSnippet e ++ "...\n" ++
  (if e.culturalContext ≠ "" then
    "   Cultural Context: " ++ contextSnippet e ++ "...\n"
  else "") ++
  (if e.locationCountry ≠ "" then "   Location: " ++ e.locationCountry ++ "\n" else "")

/-- `entryContext` assembly over the fetched entries (lines 83-104). -/
def buildEntryContext (fetched : List Entry) : String :=
  if fetched.length = 0 then ""
  else
    "\n\nRelevant cultural entries from your collection:\n" ++
      String.join (fetched.enum.map (fun p => entryBlock p.1 p.2))

/-! ## Error mapping of askQuestion -/

/-- An HTTP error response of the ask handler: status, public message,
and the optional `error` field (only populated in development mode). -/
structure ErrResponse where
  status : Nat
  message : String
  errorDetail : Option String
deriving DecidableEq, Repr

/-- The catch block of `askQuestion` (lines 238-269), branch by branch:
quota/`status === 429` first, then rate-limit/`status === 429`, then
context length, then the 500 catch-all whose detail is exposed only when
`NODE_ENV === "development"`. -/
def mapAskError (e : JsError) (devMode : Bool) : ErrResponse :=
  if e.code = some "insufficient_quota" ∨ e.status = some 429 then
    ⟨503, "AI service quota exceeded. Please try again later.", none⟩
  else if e.code = some "rate_limit_exceeded" ∨ e.status = some 429 then
    ⟨429, "Too many requests. Please wait before trying again.", none⟩
  else if e.code = some "context_length_exceeded" then
    ⟨400, "Question or context is too long. Please shorten your input.", none⟩
  else
    ⟨500, "Internal server error while processing AI request",
      if devMode then some e.message else none⟩

/-! ## askQuestion -/

/-- The request body of `POST /ai/ask` after validation (lines 56-63);
`context`, `temperature`, `maxTokens` do not affect the modelled
behaviour and are omitted. -/
structure AskRequest where
  userId : Nat
  question : String
  includeEntries : Bool
  conversationId : Option Nat
deriving DecidableEq, Repr

/-- Observable outcome of one `askQuestion` request: HTTP status, the
conversation store afterwards, whether any read or write was issued
against the persistent store, the history replayed into the prompt, the
assembled entry context, the answer returned, and the conversation id in
the response. -/
structure AskOutcome where
  status : Nat
  store : ConvStore
  storeTouched : Bool
  historyUsed : List Message
  entryContext : String
  answer : Option String
  conversationIdOut : Option Nat
deriving DecidableEq, Repr

/-- `askQuestion` (lines 45-271) for a validation-passing request.
`serviceUp` is `this.aiService !== null`; `entryFetchThrows` injects a
failure of the `Entry.find` call (caught locally, lines 105-107);
`convLookupThrows` injects a failure of `Conversation.findOne`
(NOT caught locally — it reaches the outer catch); `adapterResult` is
the outcome of the vendor call. -/
def askQuestion (serviceUp : Bool) (entries : List Entry) (store : ConvStore)
    (req : AskRequest) (entryFetchThrows : Bool) (convLookupThrows : Bool)
    (adapterResult : Except JsError String) (devMode : Bool) : AskOutcome :=
  if serviceUp = false then
    { status := 503, store := store, storeTouched := false, historyUsed := []
      entryContext := "", answer := none, conversationIdOut := none }
  else
    let entryCtx : String :=
      if req.includeEntries then
        if entryFetchThrows then ""
        else buildEntryContext (fetchUserEntries entries req.userId)
      else ""
    if convLookupThrows ∧ req.conversationId.isSome then
      { status := (mapAskError ⟨none, none, "conversation lookup failed"⟩ devMode).status
        store := store, storeTouched := true, historyUsed := []
        entryContext := entryCtx, answer := none, conversationIdOut := none }
    else
      let history := historyFor store req.conversationId req.userId
      match adapterResult with
      | .error e =>
        { status := (mapAskError e devMode).status, store := store
          storeTouched := req.includeEntries || req.conversationId.isSome
          historyUsed := history, entryContext := entryCtx
          answer := none, conversationIdOut := none }
      | .ok answer =>
        match req.conversationId with
        | none =>
          { status := 200
            store := ⟨newConversation req.userId store.nextId req.question answer ::
              store.conversations, store.nextId + 1⟩
            storeTouched := true, historyUsed := history, entryContext := entryCtx
            answer := some answer, conversationIdOut := some store.nextId }
        | some cid =>
          { status := 200, store := pushMessagePair store cid req.question answer
            storeTouched := true, historyUsed := history, entryContext := entryCtx
            answer := some answer, conversationIdOut := some cid }

/-! ## Entry-based generation endpoints -/

/-- The permission test shared by `getEntrySuggestions` (lines 287-290)
and `analyzeCulturalSignificance` (lines 503-506). -/
def canAccessEntry (e : Entry) (uid : Nat) (role : String) : Bool :=
  e.author == uid || e.isPublic || role == "admin"

/-- Observable outcome of an entry-based endpoint: HTTP status and
whether any store read was issued. -/
structure EntryEndpointOutcome where
  status : Nat
  storeRead : Bool
deriving DecidableEq, Repr

/-- `getEntrySuggestions` (lines 274-390): the entry is fetched FIRST
(`Entry.findById`, a store read), then permissions are checked, and only
then the `aiService` null check runs; any adapter error maps to a plain
500. With the google provider neither dispatch branch fires, so the
response is still a 200 whose `suggestions` field is undefined. -/
def getEntrySuggestions (provider : Option Provider) (entries : List Entry)
    (uid : Nat) (role : String) (eid : Nat)
    (adapterResult : Except JsError String) : EntryEndpointOutcome :=
  match entries.find? (fun e => e.id == eid) with
  | none => ⟨404, true⟩
  | some entry =>
    if canAccessEntry entry uid role = false then ⟨403, true⟩
    else
      match provider with
      | none => ⟨503, true⟩
      | some _ =>
        match adapterResult with
        | .error _ => ⟨500, true⟩
        | .ok _ => ⟨200, true⟩

/-- `analyzeCulturalSignificance` (lines 490-610): identical shape —
`Entry.findById(...).populate(...)` first, then permissions, then the
`aiService` null check, with a plain 500 catch-all. -/
def analyzeCulturalSignificance (provider : Option Provider) (entries : List Entry)
    (uid : Nat) (role : String) (eid : Nat)
    (adapterResult : Except JsError String) : EntryEndpointOutcome :=
  match entries.find? (fun e => e.id == eid) with
  | none => ⟨404, true⟩
  | some entry =>
    if canAccessEntry entry uid role = false then ⟨403, true⟩
    else
      match provider with
      | none => ⟨503, true⟩
      | some _ =>
        match adapterResult with
        | .error _ => ⟨500, true⟩
        | .ok _ => ⟨200, true⟩

/-! ## generateTags and service status -/

/-- The vendor dispatch of `generateTags` (lines 436-463): `tagsText` is
assigned only in the openai and anthropic branches; under google no
branch fires, no vendor call is made, and `tagsText` stays `undefined`
(modelled `Except.ok none`). -/
def generateTagsText (p : Provider) (adapterResult : Except JsError String) :
    Except JsError (Option String) :=
  match p with
  | .openai => adapterResult.map some
  | .anthropic => adapterResult.map some
  | .google => .ok none

/-- Observable outcome of `generateTags`: HTTP status, the tag list of a
success response, and whether the store was touched (it never is). -/
structure TagsOutcome where
  status : Nat
  tags : Option (List String)
  storeTouched : Bool
deriving DecidableEq, Repr

/-- `generateTags` (lines 393-487) for a validation-passing request: a
null service gives 503; a thrown adapter error hits the catch-all 500;
an undefined `tagsText` makes `tagsText.split(",")` throw a TypeError
which the same catch-all turns into a 500; otherwise the parsed tags are
returned. No branch reads or writes the persistent store. -/
def generateTags (provider : Option Provider)
    (adapterResult : Except JsError String) : TagsOutcome :=
  match provider with
  | none => ⟨503, none, false⟩
  | some p =>
    match generateTagsText p adapterResult with
    | .error _ => ⟨500, none, false⟩
    | .ok none => ⟨500, none, false⟩
    | .ok (some txt) => ⟨200, some (parseTags txt), false⟩

/-- The feature flags of `getServiceStatus` (lines 723-746): every
feature, `tagGeneration` included, is reported available exactly when
`this.aiService !== null`, i.e. whenever any of the three providers is
configured. -/
structure ServiceStatus where
  available : Bool
  questionsAndAnswers : Bool
  entrySuggestions : Bool
  tagGeneration : Bool
  culturalAnalysis : Bool
deriving DecidableEq, Repr

/-- `getServiceStatus` on the modelled provider configuration. -/
def getServiceStatus (provider : Option Provider) : ServiceStatus :=
  let isAvailable := provider.isSome
  ⟨isAvailable, isAvailable, isAvailable, isAvailable, isAvailable⟩

/-! ## Conversation retrieval and deletion -/

/-- Outcome of `GET /ai/conversations/:id`. -/
structure ConvGetOutcome where
  status : Nat
  conversation : Option Conversation
deriving DecidableEq, Repr

/-- `getConversationById` (lines 663-690): `findOne({_id, userId})`, 404
on a miss — an id owned by someone else and a nonexistent id take the
same path. -/
def getConversationById (store : ConvStore) (uid cid : Nat) : ConvGetOutcome :=
  match findOwnedConversation store cid uid with
  | none => ⟨404, none⟩
  | some c => ⟨200, some c⟩

/-- Outcome of `DELETE /ai/conversations/:id`. -/
structure ConvDeleteOutcome where
  status : Nat
  store : ConvStore
deriving DecidableEq, Repr

/-- `deleteConversation` (lines 693-720): `findOneAndDelete({_id,
userId})` removes the matching document when one exists and is a no-op
returning null otherwise, answered with a 404. -/
def deleteConversation (store : ConvStore) (uid cid : Nat) : ConvDeleteOutcome :=
  match findOwnedConversation store cid uid with
  | none => ⟨404, store⟩
  | some _ =>
    ⟨200, { store with
      conversations := store.conversations.eraseP
        (fun c => c.id == cid && c.userId == uid) }⟩

/-! ## Helper lemmas -/

theorem substrTo_length (s : String) (n : Nat) :
    (substrTo s n).length = min n s.length := by
  show (s.data.take n).length = min n s.data.length
  exact List.length_take n s.data

theorem substrTo_length_le (s : String) (n : Nat) : (substrTo s n).length ≤ n := by
  rw [substrTo_length]; exact Nat.min_le_left _ _

theorem substrTo_prefix (s : String) (n : Nat) : ∃ r, s = substrTo s n ++ r := by
  refine ⟨String.mk (s.data.drop n), ?_⟩
  cases s with
  | mk l => exact congrArg String.mk (List.take_append_drop n l).symm

theorem length_pos_ne_empty (t : String) (h : 0 < t.length) : t ≠ "" := by
  intro he
  rw [he] at h
  exact absurd h (by decide)

/-! ## Claim theorems -/

/-- C2 counterexample: on the claim's own example input the parser KEEPS
the token `averylongtagthatexceedsfortyninecharacters......` — it is 48
characters long, within the `length < 50` filter — so the output is not
`["Tag1", "tag2", "Tag3"]`. -/
theorem parseTags_example_counterexample :
    parseTags "Tag1, tag2,, averylongtagthatexceedsfortyninecharacters......, Tag3"
        ≠ ["Tag1", "tag2", "Tag3"] ∧
    ("averylongtagthatexceedsfortyninecharacters......" : String).length = 48 := by
  constructor
  · decide
  · decide

/-- C2 (amended): the tag post-processing returns at most 15 tags, each a
trimmed comma-separated token of the input taken in original order, never
empty and never longer than 49 characters; on the example input the
48-character token survives the filter, so the output is
`["Tag1", "tag2", "averylongtagthatexceedsfortyninecharacters......", "Tag3"]`. -/
theorem parseTags_spec (s : String) :
    (parseTags s).length ≤ 15 ∧
    (parseTags s).Sublist ((jsSplitComma s).map jsTrim) ∧
    (∀ t ∈ parseTags s, t ≠ "" ∧ t.length ≤ 49) ∧
    parseTags "Tag1, tag2,, averylongtagthatexceedsfortyninecharacters......, Tag3"
      = ["Tag1", "tag2", "averylongtagthatexceedsfortyninecharacters......", "Tag3"] := by
  refine ⟨?_, ?_, ?_, by decide⟩
  · calc (parseTags s).length
        = min 15 ((((jsSplitComma s).map jsTrim).filter
            (fun tag => 0 < tag.length && tag.length < 50)).length) := by
          simp [parseTags, List.length_take]
      _ ≤ 15 := Nat.min_le_left _ _
  · exact (List.take_sublist _ _).trans (List.filter_sublist _)
  · intro t ht
    have hmem : t ∈ ((jsSplitComma s).map jsTrim).filter
        (fun tag => 0 < tag.length && tag.length < 50) :=
      List.take_subset _ _ ht
    have hp := (List.mem_filter.mp hmem).2
    simp only [Bool.and_eq_true, decide_eq_true_eq] at hp
    exact ⟨length_pos_ne_empty t hp.1, Nat.lt_succ_iff.mp hp.2⟩

/-- C2 witness: the amended properties evaluated on a concrete input. -/
theorem parseTags_spec_witness :
    (parseTags "culture, dance").length ≤ 15 ∧
    (("culture" : String) ≠ "" ∧ ("culture" : String).length ≤ 49) :=
  ⟨(parseTags_spec "culture, dance").1,
   (parseTags_spec "culture, dance").2.2.1 "culture" (by decide)⟩

/-- C9: with the google provider configured, `generateTags` never returns
a tag list — the vendor dispatch has no google branch, the generated text
stays undefined, and every request ends as Internal (500) — while the
service-status endpoint reports `tagGeneration` (and `available`) as true
for the same configuration. -/
theorem google_tags_unavailable (ar : Except JsError String) :
    generateTags (some Provider.google) ar = ⟨500, none, false⟩ ∧
    generateTagsText Provider.google ar = Except.ok none ∧
    (getServiceStatus (some Provider.google)).tagGeneration = true ∧
    (getServiceStatus (some Provider.google)).available = true := by
  cases ar <;> simp [generateTags, generateTagsText, getServiceStatus]

/-- C7: the history replayed on continuation is exactly
`replayHistory conv.messages` of the owned conversation, it is a suffix
of the conversation's messages (so in order), and it never holds more
than 5 messages regardless of conversation length; `askQuestion` replays
precisely this history. -/
theorem history_replay_last_five (store : ConvStore) (cid uid : Nat)
    (es : List Entry) (q : String) (inc et dev : Bool) (co : Option Nat)
    (ar : Except JsError String) :
    (historyFor store co uid).length ≤ 5 ∧
    (∀ conv, findOwnedConversation store cid uid = some conv →
      historyFor store (some cid) uid = replayHistory conv.messages ∧
      replayHistory conv.messages <:+ conv.messages ∧
      (replayHistory conv.messages).length ≤ 5) ∧
    (askQuestion true es store ⟨uid, q, inc, co⟩ et false ar dev).historyUsed
      = historyFor store co uid := by
  have hlen : ∀ msgs : List Message, (replayHistory msgs).length ≤ 5 := by
    intro msgs
    simp only [replayHistory, List.length_drop]
    omega
  refine ⟨?_, ?_, ?_⟩
  · cases co with
    | none => simp [historyFor]
    | some c =>
      cases h : findOwnedConversation store c uid with
      | none => simp [historyFor, h]
      | some conv => simp only [historyFor, h]; exact hlen conv.messages
  · intro conv hconv
    exact ⟨by simp [historyFor, hconv], List.drop_suffix _ _, hlen conv.messages⟩
  · cases ar with
    | error e => simp [askQuestion]
    | ok ans => cases co <;> simp [askQuestion]

/-- C7 witness: a 7-message conversation replays exactly its last 5
messages, in order. -/
theorem history_replay_last_five_witness :
    historyFor
        ⟨[⟨1, 1, "t",
          [⟨"user", "m1"⟩, ⟨"assistant", "m2"⟩, ⟨"user", "m3"⟩, ⟨"assistant", "m4"⟩,
           ⟨"user", "m5"⟩, ⟨"assistant", "m6"⟩, ⟨"user", "m7"⟩]⟩], 2⟩
        (some 1) 1
      = replayHistory
          [⟨"user", "m1"⟩, ⟨"assistant", "m2"⟩, ⟨"user", "m3"⟩, ⟨"assistant", "m4"⟩,
           ⟨"user", "m5"⟩, ⟨"assistant", "m6"⟩, ⟨"user", "m7"⟩] ∧
    replayHistory
        [⟨"user", "m1"⟩, ⟨"assistant", "m2"⟩, ⟨"user", "m3"⟩, ⟨"assistant", "m4"⟩,
         ⟨"user", "m5"⟩, ⟨"assistant", "m6"⟩, ⟨"user", "m7"⟩]
      = [⟨"user", "m3"⟩, ⟨"assistant", "m4"⟩,
         ⟨"user", "m5"⟩, ⟨"assistant", "m6"⟩, ⟨"user", "m7"⟩] := by
  have h := (history_replay_last_five
      ⟨[⟨1, 1, "t",
        [⟨"user", "m1"⟩, ⟨"assistant", "m2"⟩, ⟨"user", "m3"⟩, ⟨"assistant", "m4"⟩,
         ⟨"user", "m5"⟩, ⟨"assistant", "m6"⟩, ⟨"user", "m7"⟩]⟩], 2⟩
      1 1 [] "q" false false false none (Except.ok "a")).2.1
    ⟨1, 1, "t",
      [⟨"user", "m1"⟩, ⟨"assistant", "m2"⟩, ⟨"user", "m3"⟩, ⟨"assistant", "m4"⟩,
       ⟨"user", "m5"⟩, ⟨"assistant", "m6"⟩, ⟨"user", "m7"⟩]⟩ (by decide)
  exact ⟨h.1, by decide⟩

/-- C10: a conversation id that names no conversation owned by the
requester — whether the id is absent from the store or names another
user's conversation — yields the identical NotFound outcome from both
`getConversationById` and `deleteConversation`, and every NotFound from
`deleteConversation` leaves the store unchanged. -/
theorem conversation_ownership_isolation (store : ConvStore) (uid cid : Nat)
    (h : ∀ c ∈ store.conversations, c.id = cid → c.userId ≠ uid) :
    getConversationById store uid cid = ⟨404, none⟩ ∧
    deleteConversation store uid cid = ⟨404, store⟩ ∧
    (∀ (s : ConvStore) (u i : Nat),
      (deleteConversation s u i).status = 404 → (deleteConversation s u i).store = s) := by
  have hf : findOwnedConversation store cid uid = none := by
    unfold findOwnedConversation
    rw [List.find?_eq_none]
    intro c hc
    simp only [Bool.and_eq_true, beq_iff_eq, not_and]
    exact h c hc
  refine ⟨by simp [getConversationById, hf], by simp [deleteConversation, hf], ?_⟩
  intro s u i hstat
  unfold deleteConversation at hstat ⊢
  cases hfs : findOwnedConversation s i u with
  | none => simp [hfs]
  | some c => rw [hfs] at hstat; simp at hstat

/-- C10 witness: user 1 probing user 2's conversation (id 5) and a
nonexistent id (9) gets the same 404s, with the store untouched. -/
theorem conversation_ownership_isolation_witness :
    getConversationById ⟨[⟨5, 2, "t", []⟩], 6⟩ 1 5 = ⟨404, none⟩ ∧
    deleteConversation ⟨[⟨5, 2, "t", []⟩], 6⟩ 1 5 = ⟨404, ⟨[⟨5, 2, "t", []⟩], 6⟩⟩ ∧
    getConversationById ⟨[⟨5, 2, "t", []⟩], 6⟩ 1 9 = ⟨404, none⟩ :=
  ⟨(conversation_ownership_isolation ⟨[⟨5, 2, "t", []⟩], 6⟩ 1 5 (by decide)).1,
   (conversation_ownership_isolation ⟨[⟨5, 2, "t", []⟩], 6⟩ 1 5 (by decide)).2.1,
   (conversation_ownership_isolation ⟨[⟨5, 2, "t", []⟩], 6⟩ 1 9 (by decide)).1⟩

/-- C4: a successful `askQuestion` without a `conversationId` creates
exactly one new conversation — prepended to the store with a fresh id —
holding exactly the user question and the assistant answer as its two
messages, in that order, titled with the first 100 characters of the
question. -/
theorem ask_new_conversation (es : List Entry) (store : ConvStore) (uid : Nat)
    (q ans : String) (inc et ct dev : Bool) :
    (askQuestion true es store ⟨uid, q, inc, none⟩ et ct (Except.ok ans) dev).status
      = 200 ∧
    (askQuestion true es store ⟨uid, q, inc, none⟩ et ct (Except.ok ans) dev).store.conversations
      = newConversation uid store.nextId q ans :: store.conversations ∧
    (askQuestion true es store ⟨uid, q, inc, none⟩ et ct (Except.ok ans) dev).store.nextId
      = store.nextId + 1 ∧
    (newConversation uid store.nextId q ans).messages
      = [⟨"user", q⟩, ⟨"assistant", ans⟩] ∧
    (newConversation uid store.nextId q ans).title = substrTo q 100 ∧
    (substrTo q 100).length ≤ 100 ∧
    (∃ r, q = substrTo q 100 ++ r) ∧
    (askQuestion true es store ⟨uid, q, inc, none⟩ et ct (Except.ok ans) dev).conversationIdOut
      = some store.nextId := by
  refine ⟨?_, ?_, ?_, rfl, rfl, substrTo_length_le q 100, substrTo_prefix q 100, ?_⟩ <;>
    simp [askQuestion]

/-- C8: the reference context fetches at most 5 entries, all owned by the
requester and published, and the snippets embedded in each entry block
are prefixes of the source fields of length at most 200 (description)
and 150 (culturalContext), regardless of the fields' input lengths. -/
theorem entry_context_budgets (es : List Entry) (uid : Nat) :
    (fetchUserEntries es uid).length ≤ 5 ∧
    (∀ e ∈ fetchUserEntries es uid, e.author = uid ∧ e.status = "published") ∧
    (∀ e : Entry,
      (descSnippet e).length ≤ 200 ∧
      (∃ r, e.description = descSnippet e ++ r) ∧
      (contextSnippet e).length ≤ 150 ∧
      (∃ r, e.culturalContext = contextSnippet e ++ r)) := by
  refine ⟨?_, ?_, ?_⟩
  · calc (fetchUserEntries es uid).length
        = min 5 ((es.filter (fun e => e.author == uid && e.status == "published")).length) := by
          simp [fetchUserEntries, List.length_take]
      _ ≤ 5 := Nat.min_le_left _ _
  · intro e he
    have hmem : e ∈ es.filter (fun e => e.author == uid && e.status == "published") :=
      List.take_subset _ _ he
    have hp := (List.mem_filter.mp hmem).2
    simp only [Bool.and_eq_true, beq_iff_eq] at hp
    exact hp
  · intro e
    exact ⟨substrTo_length_le _ _, substrTo_prefix _ _,
      substrTo_length_le _ _, substrTo_prefix _ _⟩

/-- C8 witness: with six matching entries the fetch stops at 5, and a
fetched entry is the requester's own published one. -/
theorem entry_context_budgets_witness :
    (fetchUserEntries
        [⟨1, 1, "published", true, "t1", "d", "", "c", ""⟩,
         ⟨2, 1, "published", true, "t2", "d", "", "c", ""⟩,
         ⟨3, 1, "published", true, "t3", "d", "", "c", ""⟩,
         ⟨4, 1, "published", true, "t4", "d", "", "c", ""⟩,
         ⟨5, 1, "published", true, "t5", "d", "", "c", ""⟩,
         ⟨6, 1, "published", true, "t6", "d", "", "c", ""⟩] 1).length ≤ 5 ∧
    ((⟨1, 1, "published", true, "t1", "d", "", "c", ""⟩ : Entry).author = 1 ∧
      (⟨1, 1, "published", true, "t1", "d", "", "c", ""⟩ : Entry).status = "published") :=
  ⟨(entry_context_budgets
      [⟨1, 1, "published", true, "t1", "d", "", "c", ""⟩,
       ⟨2, 1, "published", true, "t2", "d", "", "c", ""⟩,
       ⟨3, 1, "published", true, "t3", "d", "", "c", ""⟩,
       ⟨4, 1, "published", true, "t4", "d", "", "c", ""⟩,
       ⟨5, 1, "published", true, "t5", "d", "", "c", ""⟩,
       ⟨6, 1, "published", true, "t6", "d", "", "c", ""⟩] 1).1,
   (entry_context_budgets
      [⟨1, 1, "published", true, "t1", "d", "", "c", ""⟩,
       ⟨2, 1, "published", true, "t2", "d", "", "c", ""⟩,
       ⟨3, 1, "published", true, "t3", "d", "", "c", ""⟩,
       ⟨4, 1, "published", true, "t4", "d", "", "c", ""⟩,
       ⟨5, 1, "published", true, "t5", "d", "", "c", ""⟩,
       ⟨6, 1, "published", true, "t6", "d", "", "c", ""⟩] 1).2.1
     ⟨1, 1, "published", true, "t1", "d", "", "c", ""⟩ (by decide)⟩

/-- C1 at the failing input: user 1 continues conversation 10, which is
owned by user 2 and holds a hi/hello exchange. The history side of the
claim holds — nothing of user 2's conversation is replayed — but the save
path (`findByIdAndUpdate`, filtered by `_id` alone) appends user 1's
question/answer pair to user 2's conversation, so user 2's conversation
is NOT unchanged by user 1's request. -/
theorem ask_foreign_conversation_append :
    (askQuestion true []
        ⟨[⟨10, 2, "bt", [⟨"user", "hi"⟩, ⟨"assistant", "hello"⟩]⟩], 11⟩
        ⟨1, "q", false, some 10⟩ false false (Except.ok "ans") false).historyUsed = [] ∧
    (askQuestion true []
        ⟨[⟨10, 2, "bt", [⟨"user", "hi"⟩, ⟨"assistant", "hello"⟩]⟩], 11⟩
        ⟨1, "q", false, some 10⟩ false false (Except.ok "ans") false).store.conversations
      = [⟨10, 2, "bt",
          [⟨"user", "hi"⟩, ⟨"assistant", "hello"⟩,
           ⟨"user", "q"⟩, ⟨"assistant", "ans"⟩]⟩] ∧
    (askQuestion true []
        ⟨[⟨10, 2, "bt", [⟨"user", "hi"⟩, ⟨"assistant", "hello"⟩]⟩], 11⟩
        ⟨1, "q", false, some 10⟩ false false (Except.ok "ans") false).status = 200 := by
  refine ⟨?_, ?_, ?_⟩ <;> decide

/-- C5 at the failing input: an adapter error with code
`rate_limit_exceeded` AND HTTP status 429 — the shape real vendor
rate-limit errors carry — is captured by the quota branch (whose test
`error.status === 429` fires first) and yields 503, not the claimed 429;
the rate-limit branch answers 429 only when the status field is absent.
The remaining mappings match the claim, including message suppression
outside development mode. -/
theorem rate_limit_shadowed_by_quota_branch :
    (mapAskError ⟨some "rate_limit_exceeded", some 429, "rl"⟩ false).status = 503 ∧
    (mapAskError ⟨some "rate_limit_exceeded", none, "rl"⟩ false).status = 429 ∧
    (mapAskError ⟨some "insufficient_quota", none, "q"⟩ false).status = 503 ∧
    (mapAskError ⟨some "context_length_exceeded", none, "c"⟩ false).status = 400 ∧
    mapAskError ⟨none, none, "boom"⟩ true
      = ⟨500, "Internal server error while processing AI request", some "boom"⟩ ∧
    mapAskError ⟨none, none, "boom"⟩ false
      = ⟨500, "Internal server error while processing AI request", none⟩ := by
  refine ⟨?_, ?_, ?_, ?_, ?_, ?_⟩ <;> decide

/-- C6 counterexample: with a `conversationId` present, a failure of the
`Conversation.findOne` history lookup is not caught locally — it escapes
to the outer handler and the request fails with 500, never reaching the
adapter, even though the adapter call would have succeeded. -/
theorem conv_lookup_error_fails_request :
    (askQuestion true [] ⟨[], 0⟩ ⟨1, "q", false, some 5⟩ false true
        (Except.ok "ans") false).status = 500 ∧
    (askQuestion true [] ⟨[], 0⟩ ⟨1, "q", false, some 5⟩ false true
        (Except.ok "ans") false).answer = none := by
  constructor <;> decide

/-- C6 (amended): an error in the reference-entry lookup is caught and
degrades to an empty entry context with the request still succeeding,
but an error in the conversation-history lookup propagates to the outer
handler and fails the request with 500, leaving the store unchanged. -/
theorem lookup_error_degradation (es : List Entry) (store : ConvStore)
    (uid cid : Nat) (q ans : String) (co : Option Nat) (et dev : Bool) :
    (askQuestion true es store ⟨uid, q, true, co⟩ true false
        (Except.ok ans) dev).entryContext = "" ∧
    (askQuestion true es store ⟨uid, q, true, co⟩ true false
        (Except.ok ans) dev).status = 200 ∧
    (askQuestion true es store ⟨uid, q, true, some cid⟩ et true
        (Except.ok ans) dev).status = 500 ∧
    (askQuestion true es store ⟨uid, q, true, some cid⟩ et true
        (Except.ok ans) dev).answer = none ∧
    (askQuestion true es store ⟨uid, q, true, some cid⟩ et true
        (Except.ok ans) dev).store = store := by
  refine ⟨?_, ?_, ?_, ?_, ?_⟩ <;> cases co <;>
    simp [askQuestion, mapAskError]

/-- C3 counterexample: with no provider configured, a suggestions request
for a nonexistent entry answers 404 — not 503 — and the entry lookup is
a store read issued before the service check. -/
theorem unconfigured_suggestions_reads_store :
    (getEntrySuggestions none [] 1 "user" 7 (Except.ok "x")).status = 404 ∧
    (getEntrySuggestions none [] 1 "user" 7 (Except.ok "x")).storeRead = true ∧
    (analyzeCulturalSignificance none [] 1 "user" 7 (Except.ok "x")).status = 404 := by
  refine ⟨?_, ?_, ?_⟩ <;> decide

/-- C3 (amended): with no provider configured, `askQuestion` and
`generateTags` answer 503 without any store access; `getEntrySuggestions`
and `analyzeCulturalSignificance` always issue the entry read first and
answer 404 when the entry is absent (403 when access is denied),
answering 503 only when the entry exists and is accessible. -/
theorem service_unavailable_behaviour :
    (∀ es store req et ct ar dev,
      askQuestion false es store req et ct ar dev
        = { status := 503, store := store, storeTouched := false, historyUsed := []
            entryContext := "", answer := none, conversationIdOut := none }) ∧
    (∀ ar, generateTags none ar = ⟨503, none, false⟩) ∧
    (∀ (es : List Entry) (uid : Nat) (role : String) (eid : Nat) ar,
      (getEntrySuggestions none es uid role eid ar).storeRead = true ∧
      (analyzeCulturalSignificance none es uid role eid ar).storeRead = true ∧
      (es.find? (fun x => x.id == eid) = none →
        (getEntrySuggestions none es uid role eid ar).status = 404 ∧
        (analyzeCulturalSignificance none es uid role eid ar).status = 404) ∧
      (∀ e, es.find? (fun x => x.id == eid) = some e →
        canAccessEntry e uid role = false →
        (getEntrySuggestions none es uid role eid ar).status = 403 ∧
        (analyzeCulturalSignificance none es uid role eid ar).status = 403) ∧
      (∀ e, es.find? (fun x => x.id == eid) = some e →
        canAccessEntry e uid role = true →
        (getEntrySuggestions none es uid role eid ar).status = 503 ∧
        (analyzeCulturalSignificance none es uid role eid ar).status = 503)) := by
  refine ⟨fun es store req et ct ar dev => by simp [askQuestion],
    fun ar => by simp [generateTags], ?_⟩
  intro es uid role eid ar
  refine ⟨?_, ?_, ?_, ?_, ?_⟩
  · unfold getEntrySuggestions
    cases hf : es.find? (fun x => x.id == eid) with
    | none => simp
    | some e => by_cases hc : canAccessEntry e uid role = false <;> simp [hc]
  · unfold analyzeCulturalSignificance
    cases hf : es.find? (fun x => x.id == eid) with
    | none => simp
    | some e => by_cases hc : canAccessEntry e uid role = false <;> simp [hc]
  · intro hf
    constructor <;> simp [getEntrySuggestions, analyzeCulturalSignificance, hf]
  · intro e hf hc
    constructor <;> simp [getEntrySuggestions, analyzeCulturalSignificance, hf, hc]
  · intro e hf hc
    constructor <;> simp [getEntrySuggestions, analyzeCulturalSignificance, hf, hc]

/-- C3 witness: the amended behaviour on concrete configurations — an
unconfigured askQuestion answers 503 with the store untouched, and an
unconfigured suggestions request on an accessible entry answers 503
after its entry read. -/
theorem service_unavailable_behaviour_witness :
    askQuestion false [] ⟨[], 0⟩ ⟨1, "q", false, none⟩ false false
        (Except.ok "a") false
      = { status := 503, store := ⟨[], 0⟩, storeTouched := false, historyUsed := []
          entryContext := "", answer := none, conversationIdOut := none } ∧
    (getEntrySuggestions none [⟨1, 1, "published", true, "t", "d", "", "c", ""⟩]
        1 "user" 1 (Except.ok "x")).status = 503 :=
  ⟨(service_unavailable_behaviour.1 [] ⟨[], 0⟩ ⟨1, "q", false, none⟩ false false
      (Except.ok "a") false),
   ((service_unavailable_behaviour.2.2 [⟨1, 1, "published", true, "t", "d", "", "c", ""⟩]
      1 "user" 1 (Except.ok "x")).2.2.2.2
     ⟨1, 1, "published", true, "t", "d", "", "c", ""⟩ (by decide) (by decide)).1⟩

end AIKP
